import Mathlib

/-!
# Verification of the speech-acquisition orchestration layer

A shallow embedding of `src/hooks/useSpeechRecognition.ts` (the Speech
Acquisition Orchestrator) together with the relevant behaviour of
`src/app/api/speech/assemblyai/route.ts`.  Pure computations (the PCM
transcoder, the language map, the per-provider message handlers, the batch
chunker tick) become Lean functions; the stateful start/stop lifecycle
becomes explicit state passing over a small record of the hook's refs and
React state.
-/

namespace SpeechRec

/-! ## Language mapping (`getDeepgramLanguage`, lines 36–52)

The source evaluates `languageMap[lang] || 'en-US'` on a plain object
literal.  JS bracket lookup walks the prototype chain: a key that is not
an own property of the literal but names a property of `Object.prototype`
(such as `toString` or `__proto__`) yields the inherited function — or,
for `__proto__`, the prototype object — which is truthy, so the
`|| 'en-US'` default is *not* taken and the result is not a string from
the map at all.  The embedding therefore returns a JS value: an
own-property string, a truthy inherited non-string, or `undefined`. -/

/-- JS ToIntegerOrInfinity as used by TypedArray element conversion:
truncation toward zero. -/
def truncToward0 (q : ℚ) : ℤ :=
  if 0 ≤ q then ⌊q⌋ else ⌈q⌉

/-- Int16Array element storage: truncate toward zero, then reduce modulo
2^16 into the signed range [-32768, 32767]. -/
def int16Store (q : ℚ) : ℤ :=
  if 32768 ≤ truncToward0 q % 65536 then truncToward0 q % 65536 - 65536
  else truncToward0 q % 65536

/-- One sample of the transcoder: clamp `x * 32768` into the representable
range, then store as a signed 16-bit integer. -/
def pcmSample (x : ℚ) : ℤ :=
  int16Store (max (-32768) (min 32767 (x * 32768)))

/-- The whole block conversion: `new Int16Array(inputData.length)` filled
pointwise (lines 126–129). -/
def pcmConvert (xs : List ℚ) : List ℤ :=
  xs.map pcmSample

/-! ## Per-provider transcript forwarding (Event Normalizer)

Each provider's result handler, embedded as the list of
`onTranscript(text, isFinal)` calls it makes for one incoming result. -/

/-- JS `transcript.trim()` is falsy exactly when every character of the
string is whitespace (an empty string trims to the empty string, a
whitespace-only string trims to the empty string, anything else keeps at
least one non-whitespace character).  We embed that truthiness test
directly, over the string's characters, so it is kernel-computable. -/
def isBlank (s : String) : Bool :=
  s.toList.all Char.isWhitespace

/-- A parsed Deepgram socket message, as far as the `onmessage` handler
(lines 137–167) inspects it: its `type` tag and
`channel.alternatives[0].transcript` / `is_final` when present. -/
structure DgMessage where
  msgType : Option String
  transcript : Option String
  is_final : Bool
  deriving DecidableEq, Repr

/-- Embeds `socket.onmessage` (lines 137–167): `SpeechStarted` and `UtteranceEnd`
return early; otherwise the transcript is forwarded when it is truthy
(non-empty) and additionally `transcript.trim()` is truthy. -/
def deepgramEmit (m : DgMessage) : List (String × Bool) :=
  if m.msgType = some "SpeechStarted" then []
  else if m.msgType = some "UtteranceEnd" then []
  else match m.transcript with
    | none => []
    | some t =>
      if t = "" then []
      else if isBlank t then []
      else [(t, m.is_final)]

/-- The JSON body of a successful `/api/speech/assemblyai` response as the
client reads it: `result.transcript`. -/
structure BatchResult where
  transcript : String
  deriving DecidableEq, Repr

/-- The submission branch of the batch interval callback (lines 219–225):
on an ok response, `if (result.transcript)` — JS truthiness, i.e. the
transcript is forwarded (as final) whenever it is non-empty. -/
def assemblyEmit (r : BatchResult) : List (String × Bool) :=
  if r.transcript = "" then [] else [(r.transcript, true)]

/-- One Web Speech result item: its transcript text and finality flag. -/
structure WsResult where
  transcript : String
  isFinal : Bool
  deriving DecidableEq, Repr

/-- Embeds `recognition.onresult` (lines 259–274): concatenate the final and the
interim transcripts of the event's results, then forward each of the two
accumulated strings when truthy (non-empty). -/
def webSpeechEmit (results : List WsResult) : List (String × Bool) :=
  let interim := (results.filter (fun r => !r.isFinal)).foldl
      (fun acc r => acc ++ r.transcript) ""
  let final := (results.filter (fun r => r.isFinal)).foldl
      (fun acc r => acc ++ r.transcript) ""
  (if interim = "" then [] else [(interim, false)]) ++
  (if final = "" then [] else [(final, true)])

/-! ## The provider chain and session lifecycle

`startRecording` (lines 293–341) acquires the microphone and then tries
`startDeepgram`, `startAssemblyAI`, `startWebSpeech` in order until one
reports viable.  The environment record fixes the outcome of every
external interaction of one session. -/

inductive Provider
  | deepgram
  | assemblyai
  | webspeech
  deriving DecidableEq, Repr

/-- Fate of the Deepgram WebSocket handshake, in milliseconds from the
start of the attempt. -/
inductive Handshake
  | opensAt (t : ℕ)
  | failsAt (t : ℕ)
  | never
  deriving DecidableEq, Repr

structure Env where
  /-- true when `getUserMedia` resolves (microphone permission granted). -/
  permission : Bool
  /-- true when `GET /api/speech/deepgram` responds ok (line 59). -/
  dgConfigOk : Bool
  /-- the returned config carries a truthy `apiKey` (line 65). -/
  dgApiKey : Bool
  /-- fate of the WebSocket handshake (lines 80–135, 169–173). -/
  dgHandshake : Handshake
  /-- true when `MediaRecorder` construction and `start` succeed (lines 188–237). -/
  recorderOk : Bool
  /-- true when `POST /api/speech/assemblyai` requests would succeed — false models
  missing `ASSEMBLYAI_API_KEY` (route.ts lines 71–78) or network failure. -/
  batchFetchOk : Bool
  /-- true when `window.SpeechRecognition || window.webkitSpeechRecognition` exists
  (lines 249–250). -/
  wsAvailable : Bool
  /-- true when `recognition.start()` does not throw (line 284). -/
  wsStartOk : Bool
  deriving DecidableEq, Repr

/-- Outcome of one `startDeepgram` call (lines 55–183). -/
structure DgAttempt where
  viable : Bool
  socketCreated : Bool
  /-- the 5000 ms timer (lines 81–85) ran to completion, logging a
  timeout, calling `socket.close()` and resolving false. -/
  closedByTimeout : Bool
  deriving DecidableEq, Repr

/-- Embeds `startDeepgram`: config fetch and key check (lines 58–68), then the
promise of lines 80–178 — `onopen` before the 5000 ms timer resolves true;
`onerror` before the timer clears it and resolves false without closing;
otherwise the timer closes the socket and resolves false. -/
def startDeepgram (e : Env) : DgAttempt :=
  if !e.dgConfigOk then ⟨false, false, false⟩
  else if !e.dgApiKey then ⟨false, false, false⟩
  else
    match e.dgHandshake with
    | .opensAt t => if t < 5000 then ⟨true, true, false⟩ else ⟨false, true, true⟩
    | .failsAt t => if t < 5000 then ⟨false, true, false⟩ else ⟨false, true, true⟩
    | .never => ⟨false, true, true⟩

/-- Outcome of one `startAssemblyAI` call (lines 186–243). -/
structure BatchAttempt where
  viable : Bool
  /-- number of `POST /api/speech/assemblyai` submissions performed before
  the call returns its viability verdict. -/
  submissionsBeforeReturn : ℕ
  deriving DecidableEq, Repr

/-- Embeds `startAssemblyAI`: it constructs the recorder, registers handlers, sets
the 3000 ms interval (whose first firing is after the return), starts the
recorder and returns true (line 238); any setup exception returns false
(lines 239–242).  No network request happens before the return. -/
def startAssemblyAI (e : Env) : BatchAttempt :=
  if e.recorderOk then ⟨true, 0⟩ else ⟨false, 0⟩

def dgViable (e : Env) : Bool := (startDeepgram e).viable

def aaiViable (e : Env) : Bool := (startAssemblyAI e).viable

/-- Embeds `startWebSpeech` (lines 246–291): viable iff the runtime capability
exists and `recognition.start()` does not throw. -/
def wsViable (e : Env) : Bool := e.wsAvailable && e.wsStartOk

/-- The providers attempted by `startRecording`'s fallback chain
(lines 310–326), in order. -/
def attempted (e : Env) : List Provider :=
  if !e.permission then []
  else if dgViable e then [.deepgram]
  else if aaiViable e then [.deepgram, .assemblyai]
  else [.deepgram, .assemblyai, .webspeech]

/-- The hook's refs and React state, plus resource accounting: `releases`
counts effective releases of the acquired stream (transitions from live
tracks to stopped tracks; `track.stop()` on an already-stopped track is a
no-op). -/
structure SessionState where
  isRecording : Bool
  isConnecting : Bool
  provider : Option Provider
  acquireAttempts : ℕ
  acquisitions : ℕ
  releases : ℕ
  /-- some track of the acquired stream is still live. -/
  streamOpen : Bool
  /-- true when `streamRef.current` is non-null (line 307; nulled at line 359). -/
  streamRefSet : Bool
  /-- true when `socketRef.current` is non-null (assigned only in `onopen`, line 90). -/
  socketRefSet : Bool
  /-- a WebSocket has been constructed (line 75) whose handshake is still
  in flight: not yet in `socketRef`, not closed. -/
  inFlightSocket : Bool
  /-- the recorder is active and its 3000 ms interval timer is running. -/
  recorderActive : Bool
  errors : List String
  deriving DecidableEq, Repr

def initialState : SessionState :=
  ⟨false, false, none, 0, 0, 0, false, false, false, false, false, []⟩

/-- line 337. -/
def micDeniedMsg : String := "Microphone access denied"

/-- line 330. -/
def exhaustedMsg : String :=
  "All speech recognition services unavailable. Please use text input."

/-- One complete `startRecording` call (lines 293–341), run to the point
where its promise resolves: permission failure reports `micDeniedMsg`;
otherwise the chain runs and either a provider becomes active
(`setIsRecording(true)`, line 334) or the stream is stopped and
`exhaustedMsg` reported (lines 328–332).  On the Web Speech path the
stream's tracks are stopped immediately (line 324) but `streamRef` stays
set.  `setIsConnecting(false)` runs in `finally` on every path. -/
def startRecordingRun (e : Env) : SessionState :=
  if !e.permission then
    { initialState with acquireAttempts := 1, errors := [micDeniedMsg] }
  else
    let s0 : SessionState :=
      { initialState with
          acquireAttempts := 1, acquisitions := 1,
          streamOpen := true, streamRefSet := true }
    if dgViable e then
      { s0 with
          provider := some .deepgram, socketRefSet := true,
          isRecording := true }
    else if aaiViable e then
      { s0 with
          provider := some .assemblyai, recorderActive := true,
          isRecording := true }
    else if wsViable e then
      { s0 with
          provider := some .webspeech, streamOpen := false,
          releases := 1, isRecording := true }
    else
      { s0 with streamOpen := false, releases := 1, errors := [exhaustedMsg] }

/-- Embeds `stopRecording` (lines 343–364): close and null `socketRef` if set,
stop the recorder and its interval if active, stop the stream's tracks and
null `streamRef` if set (an effective release only if a track was still
live), then clear `isRecording` and `provider`.  A WebSocket still in its
handshake is in none of the three refs and is left untouched. -/
def stopRecordingRun (s : SessionState) : SessionState :=
  let s1 := { s with socketRefSet := false }
  let s2 := { s1 with recorderActive := false }
  let s3 :=
    if s2.streamRefSet then
      { s2 with
          releases := s2.releases + (if s2.streamOpen then 1 else 0),
          streamOpen := false, streamRefSet := false }
    else s2
  { s3 with isRecording := false, provider := none }

/-- A session driven to its end: `startRecording`, then `stopRecording`
when a provider became active (the caller-initiated stop); failed sessions
already ended inside `startRecording`. -/
def fullSession (e : Env) : SessionState :=
  let s := startRecordingRun e
  if s.isRecording then stopRecordingRun s else s

/-- The hook's state at the suspension point inside `startDeepgram`: the
microphone is acquired and `streamRef` set (line 307), `isConnecting` is
true (line 294), the WebSocket is constructed (line 75) but `socketRef` is
still null — it is assigned only in `onopen` (line 90). -/
def connectingState : SessionState :=
  { initialState with
      isConnecting := true, acquireAttempts := 1,
      acquisitions := 1, streamOpen := true, streamRefSet := true,
      inFlightSocket := true }

/-- Embeds `socket.onopen` (lines 87–135) followed by the resumption of
`startRecording` (lines 311, 334, 338–340): the socket goes into
`socketRef`, the provider is set to deepgram, the attempt's promise
resolves true, so `startRecording` sets `isRecording` and finally clears
`isConnecting`. -/
def dgOpenResume (s : SessionState) : SessionState :=
  { s with
      inFlightSocket := false, socketRefSet := true,
      provider := some Provider.deepgram, isRecording := true,
      isConnecting := false }

/-! ## Batch chunker (the 3000 ms `transcribeInterval`, lines 202–231) -/

/-- the minimum-size gate `audioBlob.size > 10000` (line 208). -/
def minClipSize : ℕ := 10000

/-- External outcome of one interval firing's submission, if one happens. -/
structure TickEnv where
  /-- the `fetch` itself throws (line 226). -/
  fetchThrows : Bool
  /-- value of `response.ok` (line 219). -/
  responseOk : Bool
  /-- value of `result.transcript` in the parsed response body (line 221). -/
  transcript : String
  deriving DecidableEq, Repr

structure TickResult where
  /-- state of `audioChunksRef.current` after the firing (sizes of its blobs). -/
  chunks : List ℕ
  /-- a `POST /api/speech/assemblyai` submission was initiated. -/
  submitted : Bool
  /-- the `onTranscript` calls made by this firing. -/
  emitted : List (String × Bool)
  deriving DecidableEq, Repr

/-- One firing of the interval callback (lines 203–231); `chunks` holds
the sizes of the blobs accumulated in `audioChunksRef`, so the combined
`audioBlob.size` is their sum.  The accumulator is cleared (line 223) only
inside `if (response.ok)` and `if (result.transcript)` — an ok response
with an empty transcript, a non-ok response, and a thrown fetch all leave
it intact. -/
def chunkerTick (chunks : List ℕ) (t : TickEnv) : TickResult :=
  if chunks.length > 0 then
    if chunks.sum > minClipSize then
      if t.fetchThrows then ⟨chunks, true, []⟩
      else if t.responseOk then
        if t.transcript = "" then ⟨chunks, true, []⟩
        else ⟨[], true, [(t.transcript, true)]⟩
      else ⟨chunks, true, []⟩
    else ⟨chunks, false, []⟩
  else ⟨chunks, false, []⟩

/-- Embeds `recognition.onerror` (lines 277–282): every error code other than
`no-speech` and `aborted` is forwarded to the caller's `onError` as
`Speech error: <code>`. -/
def webSpeechOnError (code : String) : List String :=
  if code = "no-speech" then []
  else if code = "aborted" then []
  else ["Speech error: " ++ code]

/-! ## Arithmetic facts about the transcoder -/

theorem floor_q32767 : ⌊(32767 : ℚ)⌋ = 32767 := by norm_num

theorem ceil_qneg32768 : ⌈(-32768 : ℚ)⌉ = -32768 := by
  rw [show ((-32768 : ℚ)) = ((-32768 : ℤ) : ℚ) by norm_num, Int.ceil_intCast]

theorem clamp_mem (x : ℚ) :
    -32768 ≤ max (-32768 : ℚ) (min 32767 (x * 32768)) ∧
      max (-32768 : ℚ) (min 32767 (x * 32768)) ≤ 32767 :=
  ⟨le_max_left _ _, max_le (by norm_num) (min_le_left _ _)⟩

theorem truncToward0_mem {q : ℚ} (h1 : -32768 ≤ q) (h2 : q ≤ 32767) :
    -32768 ≤ truncToward0 q ∧ truncToward0 q ≤ 32767 := by
  unfold truncToward0
  split
  case isTrue h =>
    have hf : (0 : ℤ) ≤ ⌊q⌋ := Int.floor_nonneg.mpr h
    have hu : ⌊q⌋ ≤ ⌊(32767 : ℚ)⌋ := Int.floor_mono h2
    rw [floor_q32767] at hu
    omega
  case isFalse h =>
    have hc : ⌈q⌉ ≤ (0 : ℤ) :=
      Int.ceil_le.mpr (by exact_mod_cast (not_le.mp h).le)
    have hl : ⌈(-32768 : ℚ)⌉ ≤ ⌈q⌉ := Int.ceil_mono h1
    rw [ceil_qneg32768] at hl
    omega

theorem int16Store_of_mem {q : ℚ} (h1 : -32768 ≤ q) (h2 : q ≤ 32767) :
    int16Store q = truncToward0 q := by
  have hb := truncToward0_mem h1 h2
  unfold int16Store
  split <;> omega

theorem pcmSample_mem (x : ℚ) : -32768 ≤ pcmSample x ∧ pcmSample x ≤ 32767 := by
  have hc := clamp_mem x
  have hb := truncToward0_mem hc.1 hc.2
  rw [pcmSample, int16Store_of_mem hc.1 hc.2]
  exact hb

/-! ## Claim theorems -/

/-- **C4** — for every audio block of N floating-point samples each in
[-1, 1], the conversion yields exactly N signed 16-bit samples, every
output value lies in [-32768, 32767], and inputs of exactly -1.0 and +1.0
map to -32768 and 32767 respectively by clamping, not wraparound. -/
theorem pcm_block_conversion (xs : List ℚ) (_hxs : ∀ x ∈ xs, -1 ≤ x ∧ x ≤ 1) :
    (pcmConvert xs).length = xs.length ∧
    (∀ y ∈ pcmConvert xs, -32768 ≤ y ∧ y ≤ 32767) ∧
    pcmSample 1 = 32767 ∧ pcmSample (-1) = -32768 := by
  refine ⟨by simp [pcmConvert], ?_, ?_, ?_⟩
  · intro y hy
    rcases List.mem_map.mp hy with ⟨x, _, rfl⟩
    exact pcmSample_mem x
  · norm_num [pcmSample, int16Store, truncToward0, min_def, max_def]
  · norm_num [pcmSample, int16Store, truncToward0, min_def, max_def,
      ceil_qneg32768]

/-- Witness for C4 at the concrete block `[1, -1, 1/2]`. -/
theorem pcm_block_conversion_witness :
    (pcmConvert [1, -1, 1/2]).length = 3 ∧ pcmSample 1 = 32767 := by
  have h := pcm_block_conversion [1, -1, 1/2]
    (by intro x hx; fin_cases hx <;> norm_num)
  exact ⟨by rw [h.1]; rfl, h.2.2.1⟩

/-- **C1 counterexample** — a whitespace-only (hence non-empty but blank)
provider result is forwarded to `onTranscript` by the batch handler
(lines 221–224: only JS truthiness of `result.transcript` is checked) and
by the local handler (lines 272–273), refuting the claim that such events
are never passed to the caller for every provider. -/
theorem whitespace_forwarded_cex :
    isBlank " " = true ∧
    assemblyEmit ⟨" "⟩ = [(" ", true)] ∧
    webSpeechEmit [⟨" ", false⟩] = [(" ", false)] := by
  decide

/-- **C1 amended** — no provider ever forwards an empty-text event, and
the streaming provider additionally suppresses whitespace-only text; the
batch and local providers forward non-empty whitespace-only text. -/
theorem empty_text_never_forwarded :
    (∀ m : DgMessage, ∀ t : String, ∀ f : Bool,
      (t, f) ∈ deepgramEmit m → isBlank t = false) ∧
    (∀ r : BatchResult, ∀ t : String, ∀ f : Bool,
      (t, f) ∈ assemblyEmit r → t ≠ "") ∧
    (∀ rs : List WsResult, ∀ t : String, ∀ f : Bool,
      (t, f) ∈ webSpeechEmit rs → t ≠ "") := by
  refine ⟨?_, ?_, ?_⟩
  · intro m t f h
    unfold deepgramEmit at h
    split at h
    · exact absurd h (List.not_mem_nil _)
    · split at h
      · exact absurd h (List.not_mem_nil _)
      · split at h
        · exact absurd h (List.not_mem_nil _)
        · split at h
          · exact absurd h (List.not_mem_nil _)
          · split at h
            · exact absurd h (List.not_mem_nil _)
            · simp only [List.mem_singleton, Prod.mk.injEq] at h
              rcases h with ⟨rfl, _⟩
              simp_all
  · intro r t f h
    unfold assemblyEmit at h
    split at h
    · exact absurd h (List.not_mem_nil _)
    · simp only [List.mem_singleton, Prod.mk.injEq] at h
      rcases h with ⟨rfl, _⟩
      assumption
  · intro rs t f h
    unfold webSpeechEmit at h
    rcases List.mem_append.mp h with h' | h'
    · split at h'
      · exact absurd h' (List.not_mem_nil _)
      · simp only [List.mem_singleton, Prod.mk.injEq] at h'
        rcases h' with ⟨rfl, _⟩
        assumption
    · split at h'
      · exact absurd h' (List.not_mem_nil _)
      · simp only [List.mem_singleton, Prod.mk.injEq] at h'
        rcases h' with ⟨rfl, _⟩
        assumption

/-- Witness for C1-amended: the theorem applied at concrete forwarded
events of each provider. -/
theorem empty_text_never_forwarded_witness :
    isBlank "hi" = false ∧ (" " : String) ≠ "" ∧ ("ok" : String) ≠ "" :=
  ⟨empty_text_never_forwarded.1 ⟨none, some "hi", true⟩ "hi" true (by decide),
   empty_text_never_forwarded.2.1 ⟨" "⟩ " " true (by decide),
   empty_text_never_forwarded.2.2 [⟨"ok", true⟩] "ok" true (by decide)⟩

/-- **C2 counterexample** — in an environment with working recorder setup
but failing batch submissions (missing credentials make the route answer
500 before any transcription, route.ts lines 71–78), `startAssemblyAI`
still reports viable, having performed zero submissions before returning,
and the chain never advances to the local provider — refuting viability
determined by a successful first round-trip. -/
theorem batch_viable_without_roundtrip_cex :
    (startAssemblyAI
        ⟨true, false, false, .never, true, false, true, true⟩).viable
      = true ∧
    (startAssemblyAI
        ⟨true, false, false, .never, true, false, true, true⟩).submissionsBeforeReturn
      = 0 ∧
    (⟨true, false, false, .never, true, false, true, true⟩ : Env).batchFetchOk
      = false ∧
    attempted ⟨true, false, false, .never, true, false, true, true⟩
      = [Provider.deepgram, Provider.assemblyai] := by
  decide

/-- **C2 amended** — the batch provider reports viable exactly when the
recorder setup succeeds, before any submission round-trip (zero
submissions precede the verdict), so request failures of the first
submission — including missing credentials — do not affect viability and
the chain does not advance to the local provider. -/
theorem batch_viability_is_recorder_setup :
    ∀ e : Env,
      (startAssemblyAI e).viable = e.recorderOk ∧
      (startAssemblyAI e).submissionsBeforeReturn = 0 ∧
      (e.permission = true → e.recorderOk = true →
        Provider.webspeech ∉ attempted e) := by
  intro e
  refine ⟨?_, ?_, ?_⟩
  · unfold startAssemblyAI; split <;> simp_all
  · unfold startAssemblyAI; split <;> rfl
  · intro hp hr
    unfold attempted
    simp only [hp, Bool.not_true, Bool.false_eq_true, if_false]
    split
    · simp
    · have : aaiViable e = true := by
        simp [aaiViable, startAssemblyAI, hr]
      simp [this]

/-- Witness for C2-amended at a concrete environment with a working
recorder. -/
theorem batch_viability_is_recorder_setup_witness :
    Provider.webspeech ∉
      attempted ⟨true, true, true, .never, true, true, true, true⟩ :=
  (batch_viability_is_recorder_setup
    ⟨true, true, true, .never, true, true, true, true⟩).2.2 rfl rfl

/-- **C3** — evaluation at the failing input: `stopRecording` called while
the streaming handshake is in flight leaves the in-flight WebSocket
untouched (it is not yet in `socketRef`), and when `onopen` later fires
the session becomes Active (`provider = deepgram`, `isRecording = true`)
with the microphone stream already released — the cancelled attempt is
resurrected, contradicting the claimed cancellation semantics. -/
theorem stop_during_connecting_resurrects :
    (stopRecordingRun connectingState).inFlightSocket = true ∧
    (stopRecordingRun connectingState).streamOpen = false ∧
    (stopRecordingRun connectingState).isRecording = false ∧
    (dgOpenResume (stopRecordingRun connectingState)).isRecording = true ∧
    (dgOpenResume (stopRecordingRun connectingState)).provider
      = some Provider.deepgram ∧
    (dgOpenResume (stopRecordingRun connectingState)).socketRefSet = true ∧
    (dgOpenResume (stopRecordingRun connectingState)).streamOpen = false := by
  decide

/-- **C5** — providers are attempted in the fixed order streaming, batch,
local: the chain is always one of the four order-respecting lists; a
successful handshake within 5000 ms makes streaming the active provider
with no other provider attempted; a handshake absent at 5000 ms means the
timeout closed the streaming transport and the batch provider is attempted
second. -/
theorem provider_chain_order (e : Env) (hp : e.permission = true) :
    (attempted e = [Provider.deepgram] ∨
      attempted e = [Provider.deepgram, Provider.assemblyai] ∨
      attempted e = [Provider.deepgram, Provider.assemblyai,
        Provider.webspeech]) ∧
    (dgViable e = true →
      attempted e = [Provider.deepgram] ∧
      (startRecordingRun e).provider = some Provider.deepgram ∧
      (startRecordingRun e).isRecording = true) ∧
    (∀ t : ℕ, e.dgHandshake = Handshake.opensAt t → t < 5000 →
      e.dgConfigOk = true → e.dgApiKey = true → dgViable e = true) ∧
    ((e.dgHandshake = Handshake.never ∨
        (∃ t, e.dgHandshake = Handshake.opensAt t ∧ 5000 ≤ t)) →
      e.dgConfigOk = true → e.dgApiKey = true →
      (startDeepgram e).closedByTimeout = true ∧
      (attempted e).take 2 = [Provider.deepgram, Provider.assemblyai]) := by
  refine ⟨?_, ?_, ?_, ?_⟩
  · unfold attempted
    simp only [hp, Bool.not_true, Bool.false_eq_true, if_false]
    split
    · exact Or.inl rfl
    · split
      · exact Or.inr (Or.inl rfl)
      · exact Or.inr (Or.inr rfl)
  · intro hv
    unfold attempted startRecordingRun
    simp [hp, hv]
  · intro t ht hlt hc hk
    simp [dgViable, startDeepgram, hc, hk, ht, hlt]
  · intro hcase hc hk
    have hnv : dgViable e = false := by
      rcases hcase with hn | ⟨t, ht, hge⟩
      · simp [dgViable, startDeepgram, hc, hk, hn]
      · have : ¬ t < 5000 := by omega
        simp [dgViable, startDeepgram, hc, hk, ht, this]
    constructor
    · rcases hcase with hn | ⟨t, ht, hge⟩
      · simp [startDeepgram, hc, hk, hn]
      · have : ¬ t < 5000 := by omega
        simp [startDeepgram, hc, hk, ht, this]
    · unfold attempted
      simp only [hp, Bool.not_true, Bool.false_eq_true, if_false, hnv]
      split <;> rfl

/-- Witness for C5: handshake at 4000 ms makes streaming the only
attempted provider; a handshake that never arrives puts batch second with
the streaming transport closed by its timeout. -/
theorem provider_chain_order_witness :
    attempted ⟨true, true, true, .opensAt 4000, true, true, true, true⟩
      = [Provider.deepgram] ∧
    (startDeepgram
        ⟨true, true, true, .never, true, true, true, true⟩).closedByTimeout
      = true := by
  constructor
  · exact ((provider_chain_order
      ⟨true, true, true, .opensAt 4000, true, true, true, true⟩ rfl).2.1
        (by decide)).1
  · exact ((provider_chain_order
      ⟨true, true, true, .never, true, true, true, true⟩ rfl).2.2.2
        (Or.inl rfl) rfl rfl).1

/-- **C6** — in every session whose microphone acquisition succeeds,
exactly one acquisition and exactly one effective release of the stream
occur by session end (success followed by caller stop, provider
exhaustion, or the local-provider path that stops the tracks early), the
stream is closed at session end, and a further `stopRecording` performs no
additional release (`track.stop()` on stopped tracks is a no-op). -/
theorem mic_acquire_release_balanced (e : Env) (hp : e.permission = true) :
    (fullSession e).acquireAttempts = 1 ∧
    (fullSession e).acquisitions = 1 ∧
    (fullSession e).releases = 1 ∧
    (fullSession e).streamOpen = false ∧
    (stopRecordingRun (fullSession e)).releases = 1 := by
  cases hd : dgViable e <;> cases ha : aaiViable e <;>
    cases hw : wsViable e <;>
      simp [fullSession, startRecordingRun, stopRecordingRun, initialState,
        hp, hd, ha, hw]

/-- Witness for C6 at a concrete session: streaming fails, batch fails,
the local provider wins, then the caller stops. -/
theorem mic_acquire_release_balanced_witness :
    (fullSession ⟨true, false, true, .never, false, true, true, true⟩).releases
      = 1 ∧
    (fullSession
        ⟨true, false, true, .never, false, true, true, true⟩).streamOpen
      = false :=
  ⟨(mic_acquire_release_balanced
      ⟨true, false, true, .never, false, true, true, true⟩ rfl).2.2.1,
   (mic_acquire_release_balanced
      ⟨true, false, true, .never, false, true, true, true⟩ rfl).2.2.2.1⟩

/-- **C7 counterexample** — a tick whose submission round-trip succeeds
(`response.ok`) but whose body carries an empty transcript does not clear
the accumulator (the clear at line 223 sits inside
`if (result.transcript)`), refuting "a successful submission clears the
accumulator". -/
theorem chunker_ok_empty_transcript_keeps_cex :
    (chunkerTick [20000] ⟨false, true, ""⟩).submitted = true ∧
    (⟨false, true, ""⟩ : TickEnv).responseOk = true ∧
    (chunkerTick [20000] ⟨false, true, ""⟩).chunks = [20000] := by
  decide

/-- **C7 amended** — on each tick the accumulated audio is submitted iff
its size exceeds the minimum threshold; the accumulator is cleared iff the
submission round-trip succeeds *and* returns a non-empty transcript (which
is then emitted as one final event); a failed request, a non-ok response,
and an ok response with an empty transcript all leave the accumulator
intact for retry. -/
theorem chunker_tick_spec :
    ∀ chunks : List ℕ, ∀ t : TickEnv,
      ((chunkerTick chunks t).submitted
        = decide (chunks.sum > minClipSize)) ∧
      (t.fetchThrows = false → t.responseOk = true → t.transcript ≠ "" →
        chunks.sum > minClipSize →
        (chunkerTick chunks t).chunks = [] ∧
        (chunkerTick chunks t).emitted = [(t.transcript, true)]) ∧
      ((t.fetchThrows = true ∨ t.responseOk = false ∨ t.transcript = "") →
        (chunkerTick chunks t).chunks = chunks) := by
  intro chunks t
  refine ⟨?_, ?_, ?_⟩
  · unfold chunkerTick
    split
    case isTrue hlen =>
      split
      case isTrue hsum => split_ifs <;> simp [hsum]
      case isFalse hsum => simp [hsum]
    case isFalse hlen =>
      have hnil : chunks = [] := List.length_eq_zero.mp (by omega)
      subst hnil
      simp [minClipSize]
  · intro hf ho ht hsum
    have hlen : chunks.length > 0 := by
      cases chunks with
      | nil => simp [minClipSize] at hsum
      | cons a l => simp
    simp [chunkerTick, hlen, hsum, hf, ho, ht]
  · intro hcase
    unfold chunkerTick
    split_ifs <;> simp_all

/-- Witness for C7-amended: an over-threshold tick with a successful
submission and non-empty transcript clears the accumulator and emits the
transcript. -/
theorem chunker_tick_spec_witness :
    (chunkerTick [20000] ⟨false, true, "hello"⟩).chunks = [] ∧
    (chunkerTick [20000] ⟨false, true, "hello"⟩).emitted
      = [("hello", true)] :=
  (chunker_tick_spec [20000] ⟨false, true, "hello"⟩).2.1 rfl rfl
    (by decide) (by decide)

/-- **C8** — when all three providers fail viability, the caller receives
the provider-exhaustion error exactly once, `isRecording` is false when it
is delivered and stays false for the session (also across a later
`stopRecording`). -/
theorem exhaustion_single_error (e : Env) (hp : e.permission = true)
    (hd : dgViable e = false) (ha : aaiViable e = false)
    (hw : wsViable e = false) :
    (startRecordingRun e).errors = [exhaustedMsg] ∧
    (startRecordingRun e).isRecording = false ∧
    (stopRecordingRun (startRecordingRun e)).isRecording = false ∧
    (stopRecordingRun (startRecordingRun e)).errors = [exhaustedMsg] := by
  simp [startRecordingRun, stopRecordingRun, initialState, hp, hd, ha, hw]

/-- Witness for C8 at a concrete environment in which every provider
fails. -/
theorem exhaustion_single_error_witness :
    (startRecordingRun
        ⟨true, false, false, .never, false, false, false, false⟩).errors
      = [exhaustedMsg] ∧
    (startRecordingRun
        ⟨true, false, false, .never, false, false, false, false⟩).isRecording
      = false :=
  ⟨(exhaustion_single_error
      ⟨true, false, false, .never, false, false, false, false⟩
      rfl (by decide) (by decide) (by decide)).1,
   (exhaustion_single_error
      ⟨true, false, false, .never, false, false, false, false⟩
      rfl (by decide) (by decide) (by decide)).2.1⟩

/-- **C9 counterexample** — the local provider's runtime `onerror` handler
forwards `Speech error: network` to the caller's `onError`, a message that
is neither the permission-denial error nor the provider-exhaustion error,
refuting "the only errors ever delivered are permission denial and
all-providers-exhausted". -/
theorem webspeech_runtime_error_surfaced_cex :
    webSpeechOnError "network" = ["Speech error: network"] ∧
    ("Speech error: network" ≠ micDeniedMsg) ∧
    ("Speech error: network" ≠ exhaustedMsg) := by
  decide

/-- **C9 amended** — the start-up chain itself surfaces only permission
denial and provider exhaustion (sessions that activate a provider surface
nothing), but in addition the local provider's runtime recognition errors
other than `no-speech` and `aborted` are forwarded as
`Speech error: <code>`; streaming and batch per-provider failures remain
internal. -/
theorem onerror_surface_policy :
    (∀ e : Env, ∀ m : String, m ∈ (startRecordingRun e).errors →
      m = micDeniedMsg ∨ m = exhaustedMsg) ∧
    (∀ e : Env, e.permission = true →
      (startRecordingRun e).isRecording = true →
      (startRecordingRun e).errors = []) ∧
    (∀ code m : String, m ∈ webSpeechOnError code →
      code ≠ "no-speech" ∧ code ≠ "aborted" ∧
        m = "Speech error: " ++ code) := by
  refine ⟨?_, ?_, ?_⟩
  · intro e m h
    unfold startRecordingRun at h
    split at h
    · simp [initialState] at h
      simp [h]
    · split at h
      · simp [initialState] at h
      · split at h
        · simp [initialState] at h
        · split at h
          · simp [initialState] at h
          · simp [initialState] at h
            simp [h]
  · intro e hp hr
    unfold startRecordingRun at hr ⊢
    simp only [hp, Bool.not_true, Bool.false_eq_true, if_false] at hr ⊢
    split at hr
    · simp_all [initialState]
    · split at hr
      · simp_all [initialState]
      · split at hr
        · simp_all [initialState]
        · simp [initialState] at hr
  · intro code m h
    unfold webSpeechOnError at h
    split at h
    · exact absurd h (List.not_mem_nil _)
    · split at h
      · exact absurd h (List.not_mem_nil _)
      · simp only [List.mem_singleton] at h
        refine ⟨by assumption, by assumption, h⟩

/-- Witness for C9-amended at the concrete local-provider error code
`network`. -/
theorem onerror_surface_policy_witness :
    ("network" : String) ≠ "no-speech" ∧ ("network" : String) ≠ "aborted" ∧
    "Speech error: network" = "Speech error: " ++ "network" :=
  onerror_surface_policy.2.2 "network" "Speech error: network" (by decide)

end SpeechRec
